import Mathlib

/-!
Verification development for the Education-Music video pipeline
(`src/pipeline.py`, `src/api.py`, `src/video_editor.py`, `src/tts_generator.py`,
`src/video_generator.py`, `src/music_generator.py`).

The Python sources are shallowly embedded: pure command construction and byte
manipulation become Lean functions over `List String` / `List Nat`; calls to
external generative services and to `ffmpeg` become oracle parameters; Python
exceptions become `Except PyErr`.  Machine integers are modelled as `Int`/`Nat`
with the range checks `struct.pack` performs made explicit.
-/

/-- Kinds of Python exceptions the embedded code can surface.
`typeError` stands for `TypeError` (e.g. subscripting `None`),
`indexError` for `IndexError` (subscripting past the end of a list),
`valueError` for `ValueError`, and `raised` for any other raised exception,
carrying its message. -/
inductive PyErr where
  | typeError : PyErr
  | indexError : PyErr
  | valueError : String → PyErr
  | raised : String → PyErr
deriving DecidableEq, Repr

/-- Render an exception the way the gateway's `f"... {e}"` interpolation would
(only the distinctions the claims need are kept). -/
def pyErrMsg : PyErr → String
  | .typeError => "TypeError"
  | .indexError => "IndexError"
  | .valueError m => m
  | .raised m => m

/-- Split a character list at every occurrence of `sep` (the behaviour of
Python `str.split(sep)` for a one-character separator, which is the only kind
this repository uses). -/
def pySplitChar (sep : Char) : List Char → List (List Char)
  | [] => [[]]
  | c :: cs =>
    let r := pySplitChar sep cs
    if c = sep then [] :: r
    else
      match r with
      | h :: t => (c :: h) :: t
      | [] => [[c]]

/-- Python `str.split(sep)` for a one-character separator. -/
def pySplit (s : String) (sep : Char) : List String :=
  (pySplitChar sep s.toList).map String.mk

/-- Python `str.strip()` (ASCII whitespace; the strings this repository
strips contain no exotic Unicode whitespace). -/
def pyStrip (s : String) : String :=
  String.mk (((s.toList.dropWhile Char.isWhitespace).reverse.dropWhile
    Char.isWhitespace).reverse)

/-- Python `str.lower()` (ASCII letters suffice for the inputs used here). -/
def pyLower (s : String) : String :=
  String.mk (s.toList.map Char.toLower)

/-- Python `s.startswith(p)`. -/
def pyStartsWith (s p : String) : Bool :=
  p.toList.isPrefixOf s.toList

/-- One pass of Python `str.replace` over a character list, with explicit
fuel (the list length) so that recursion is structural: replace each
non-overlapping occurrence of `pat`, scanning left to right.  `pat` is
non-empty at every call site. -/
def pyReplaceFuel (pat rep : List Char) : Nat → List Char → List Char
  | 0, cs => cs
  | _ + 1, [] => []
  | fuel + 1, c :: cs =>
    if pat.isPrefixOf (c :: cs) then
      rep ++ pyReplaceFuel pat rep fuel ((c :: cs).drop pat.length)
    else
      c :: pyReplaceFuel pat rep fuel cs

/-- Python `s.replace(pat, rep)` (all occurrences, left to right). -/
def pyReplace (s pat rep : String) : String :=
  String.mk (pyReplaceFuel pat.toList rep.toList s.toList.length s.toList)

/-- Python list subscription `xs[i]`: raises `IndexError` out of range. -/
def pyIndex (xs : List String) (i : Nat) : Except PyErr String :=
  match xs[i]? with
  | some v => .ok v
  | none => .error .indexError

/-- Python subscription applied to a value that is either a list or `None`
(the return type of `generate_videos`): `None[i]` raises `TypeError`. -/
def pySub (o : Option (List String)) (i : Nat) : Except PyErr String :=
  match o with
  | none => .error .typeError
  | some xs => pyIndex xs i

/-- True when an `Except` is an `error`. -/
def isErr {ε α : Type} : Except ε α → Bool
  | .error _ => true
  | .ok _ => false

/-- `str(pathlib.Path(p))` for POSIX paths: drops duplicate slashes, `.`
segments and a trailing slash (symlink/`..` handling is not needed by the
callers in this repository, which pass already-normalised relative paths). -/
def pathNorm (p : String) : String :=
  let isAbs := pyStartsWith p "/"
  let parts := (pySplit p '/').filter (fun s => s ≠ "" && s ≠ ".")
  let body := String.intercalate "/" parts
  if isAbs then "/" ++ body
  else if body = "" then "." else body

/-- `os.path.relpath(p, start)` for normalised relative POSIX paths (the
gateway calls it as `os.path.relpath(output_path, "outputs")`): strip the
common prefix of the segment lists, then prepend one `..` per remaining
`start` segment. -/
def relpathSegs : List String → List String → List String
  | a :: as, b :: bs =>
      if a = b then relpathSegs as bs
      else List.replicate (a :: as).length ".." ++ (b :: bs)
  | [], bs => bs
  | as, [] => List.replicate as.length ".."

/-- `os.path.relpath` on strings (see `relpathSegs`). -/
def relpath (p start : String) : String :=
  let a := (pySplit start '/').filter (fun s => s ≠ "" && s ≠ ".")
  let b := (pySplit p '/').filter (fun s => s ≠ "" && s ≠ ".")
  let parts := relpathSegs a b
  if parts = [] then "." else String.intercalate "/" parts

/-! ## `video_editor.py` -/

/-- Python `current_label.strip("[]")`: remove every leading and trailing
`[` or `]` character. -/
def stripSquare (s : String) : String :=
  let isBr := fun c => c = '[' ∨ c = ']'
  String.mk ((s.toList.dropWhile isBr).reverse.dropWhile isBr).reverse

/-- The `ffmpeg` argument list built by
`video_editor.merge_audio_to_video`.  The source takes `audio_offset_sec` as a
float and converts it to `int(audio_offset_sec * 1000)` milliseconds; the
embedding takes the milliseconds directly (`audioOffsetMs`), and takes
`volume` as the already-rendered numeric string the f-string would embed. -/
def mergeAudioCmd (video_path audio_path output_path : String)
    (audioOffsetMs : Nat) (volume : Option String) (reencode : Bool) :
    List String :=
  let base := ["ffmpeg", "-y", "-i", video_path, "-i", audio_path]
  let s1 : List String × String :=
    if audioOffsetMs > 0 then
      (["[1:a]adelay=" ++ toString audioOffsetMs ++ "|" ++
          toString audioOffsetMs ++ "[a_del]"], "[a_del]")
    else ([], "[1:a]")
  let s2 : List String × String :=
    match volume with
    | some v => (s1.1 ++ [s1.2 ++ "volume=" ++ v ++ "[a_vol]"], "[a_vol]")
    | none => s1
  let mapped :=
    if s2.1 ≠ [] then
      base ++ ["-filter_complex", String.intercalate ";" s2.1,
        "-map", "0:v:0", "-map", stripSquare s2.2]
    else
      base ++ ["-map", "0:v:0", "-map", "1:a:0"]
  let enc :=
    if reencode then
      ["-c:v", "libx264", "-preset", "veryfast", "-crf", "18",
        "-c:a", "aac", "-b:a", "192k"]
    else
      ["-c:v", "copy", "-c:a", "aac", "-b:a", "192k"]
  mapped ++ enc ++ ["-shortest", output_path]

/-- The per-input label pairs `[0:v][0:a][1:v][1:a]...` of
`concat_videos`' filter. -/
def vaLabels (n : Nat) : String :=
  String.join ((List.range n).map
    (fun i => "[" ++ toString i ++ ":v][" ++ toString i ++ ":a]"))

/-- The `concat` filter string `...concat=n=<n>:v=1:a=1[vout][aout]`. -/
def concatFilter (n : Nat) : String :=
  vaLabels n ++ "concat=n=" ++ toString n ++ ":v=1:a=1[vout][aout]"

/-- The `ffmpeg` argument list `concat_videos` builds in its default
(`reencode=True`) branch for an already-normalised video list. -/
def concatCmd (videos : List String) (output_path : String) : List String :=
  (["ffmpeg", "-y"] ++ videos.flatMap (fun v => ["-i", v])) ++
    ["-filter_complex", concatFilter videos.length,
      "-map", "[vout]", "-map", "[aout]",
      "-c:v", "libx264", "-preset", "veryfast", "-crf", "18",
      "-c:a", "aac", "-b:a", "192k", output_path]

/-- `video_editor.concat_videos` up to the subprocess boundary: normalise the
paths, raise `ValueError("Danh sách video rỗng")` on an empty list, otherwise
return the `ffmpeg` command it runs (the subprocess outcome is external). -/
def concat_videos (video_paths : List String) (output_path : String) :
    Except PyErr (List String) :=
  let videos := video_paths.map pathNorm
  if videos.length = 0 then .error (.valueError "Danh sách video rỗng")
  else .ok (concatCmd videos output_path)

/-! ## `tts_generator.py`: `parse_audio_mime_type` and `convert_to_wav` -/

/-- The digit part of Python `int(str)`: non-empty, ASCII digits with
single underscores allowed only between digits. -/
def pyIntDigits? (cs : List Char) : Option Nat :=
  if cs = [] then none
  else if cs.head? = some '_' ∨ cs.getLast? = some '_' then none
  else if (cs.zip cs.tail).any (fun p => p.1 = '_' ∧ p.2 = '_') then none
  else
    let ds := cs.filter (fun c => c ≠ '_')
    if ds.all Char.isDigit then
      some (ds.foldl (fun a c => a * 10 + (c.toNat - 48)) 0)
    else none

/-- Python `int(str)`: strip whitespace, optional sign, decimal digits
(raising `ValueError`, i.e. `none`, otherwise). -/
def pythonInt? (s : String) : Option Int :=
  let t := pyStrip s
  if pyStartsWith t "-" then (pyIntDigits? (t.toList.drop 1)).map (fun n => -(n : Int))
  else if pyStartsWith t "+" then (pyIntDigits? (t.toList.drop 1)).map (fun n => (n : Int))
  else (pyIntDigits? t.toList).map (fun n => (n : Int))

/-- Python `s.split(sep, 1)[1]`: everything after the first occurrence of the
(one-character) separator; only called under a guard that guarantees the
separator occurs. -/
def afterFirst (s : String) (sep : Char) : String :=
  String.intercalate (String.mk [sep]) ((pySplit s sep).drop 1)

/-- The dictionary `tts_generator.parse_audio_mime_type` returns. -/
structure AudioParams where
  bits_per_sample : Int
  rate : Int
deriving DecidableEq, Repr

/-- `tts_generator.parse_audio_mime_type`: defaults 16 bits / 24000 Hz,
overridden by the last well-formed `rate=` parameter (case-insensitive match,
value parsed from the original casing) and the last `audio/L<bits>` parameter
(case-sensitive); `int()` failures are swallowed. -/
def mimeStep (acc : AudioParams) (part : String) : AudioParams :=
  let param := pyStrip part
  if pyStartsWith (pyLower param) "rate=" then
    match pythonInt? (afterFirst param '=') with
    | some r => { acc with rate := r }
    | none => acc
  else if pyStartsWith param "audio/L" then
    match pythonInt? (afterFirst param 'L') with
    | some b => { acc with bits_per_sample := b }
    | none => acc
  else acc

/-- See `mimeStep` for the treatment of one `;`-separated parameter. -/
def parse_audio_mime_type (mime_type : String) : AudioParams :=
  (pySplit mime_type ';').foldl mimeStep ⟨16, 24000⟩

/-- `struct.pack "<H"`: two little-endian bytes, or `none` (a raised
`struct.error`) when the value is outside `0 .. 65535`. -/
def u16le? (n : Int) : Option (List Nat) :=
  if 0 ≤ n ∧ n ≤ 65535 then some [n.toNat % 256, n.toNat / 256] else none

/-- `struct.pack "<I"`: four little-endian bytes, or `none` when the value is
outside `0 .. 4294967295`. -/
def u32le? (n : Int) : Option (List Nat) :=
  if 0 ≤ n ∧ n ≤ 4294967295 then
    some [n.toNat % 256, n.toNat / 256 % 256, n.toNat / 65536 % 256,
      n.toNat / 16777216]
  else none

/-- The 44-byte WAV header `convert_to_wav` packs with
`struct.pack("<4sI4s4sIHHIIHH4sI", ...)`, as a function of the parsed mime
parameters and the payload length.  Mirrors the source's falsy-to-default
coercions `int(params["bits_per_sample"] or 16)` and
`int(params["rate"] or 24000)`, Python's floor division `bits // 8`, and the
range checks `struct.pack` applies to each `H`/`I` field. -/
def wavHeader? (p : AudioParams) (dataLen : Nat) : Option (List Nat) := do
  let bits : Int := if p.bits_per_sample = 0 then 16 else p.bits_per_sample
  let rate : Int := if p.rate = 0 then 24000 else p.rate
  let num_channels : Int := 1
  let data_size : Int := dataLen
  let bytes_per_sample : Int := Int.fdiv bits 8
  let block_align : Int := num_channels * bytes_per_sample
  let byte_rate : Int := rate * block_align
  let chunk_size : Int := 36 + data_size
  let b_chunk ← u32le? chunk_size
  let b_fmtlen ← u32le? 16
  let b_audiofmt ← u16le? 1
  let b_ch ← u16le? num_channels
  let b_rate ← u32le? rate
  let b_byterate ← u32le? byte_rate
  let b_ba ← u16le? block_align
  let b_bits ← u16le? bits
  let b_dsize ← u32le? data_size
  return [82, 73, 70, 70] ++ b_chunk ++ [87, 65, 86, 69] ++
    [102, 109, 116, 32] ++ b_fmtlen ++ b_audiofmt ++ b_ch ++ b_rate ++
    b_byterate ++ b_ba ++ b_bits ++ [100, 97, 116, 97] ++ b_dsize

/-- `tts_generator.convert_to_wav`: prepend the packed header to the payload;
a `struct.error` (field out of range) propagates as a raised exception. -/
def convert_to_wav (audio_data : List Nat) (mime_type : String) :
    Except PyErr (List Nat) :=
  match wavHeader? (parse_audio_mime_type mime_type) audio_data.length with
  | some h => .ok (h ++ audio_data)
  | none => .error (.raised "struct.error: argument out of range")

/-! ## `pipeline.py`: the scene loop of `pipeline` -/

/-- One entry of the script's `scence_script` array. -/
structure SceneSpec where
  script : String
  prompt_image : String
  prompt_video : String
  main_content : String
deriving DecidableEq, Repr

/-- The external calls `pipeline` makes per scene, as oracles.  Each can raise
(`Except.error`).  `generate_videos` additionally returns `none` for Python
`None` (its value after exhausting every retry).  The source invokes
`generate_tts` with an `output_path` keyword that `generate_tts` does not
declare and `merge_audio_to_video` / `extract_last_frame_to_image_cv2` run
`ffmpeg`/OpenCV; the oracles abstract those calls by their argument-to-result
behaviour. -/
structure Gen where
  generate_images : String → Option String → String → Except PyErr (List String)
  generate_tts : String → Except PyErr (List String)
  generate_videos : String → Option String → Except PyErr (Option (List String))
  merge_audio_to_video : String → String → String → Except PyErr String
  extract_last_frame : String → String → Except PyErr String

/-- The body of `pipeline`'s per-scene loop iteration (`src/pipeline.py`,
lines 95-110): generate the scene image and narration, generate the clip from
the fresh image (scene 0) or from the previous scene's extracted last frame
(all later scenes), mux the narration onto the clip under the
`*_audio.mp4` name, extract the new last frame, and hand back the muxed clip
path together with the new last frame.  Any step's exception propagates —
there is no per-scene `try`/`except`. -/
def sceneStep (g : Gen) (images_path : Option String) (i : Nat)
    (scene : SceneSpec) (last_frame : Option String) :
    Except PyErr (String × String) := do
  let images ← g.generate_images (scene.prompt_image ++ ", Use image reference ")
    images_path ("outputs/images/image_" ++ toString i ++ ".png")
  let audio ← g.generate_tts scene.script
  let vids ←
    if i = 0 then do
      let img0 ← pyIndex images 0
      g.generate_videos (scene.prompt_video ++ ", Use image reference ") (some img0)
    else
      g.generate_videos (scene.prompt_video ++ ", Use image reference ") last_frame
  let v0 ← pySub vids 0
  let a0 ← pyIndex audio 0
  let merged := pyReplace v0 ".mp4" "_audio.mp4"
  let _ ← g.merge_audio_to_video v0 a0 merged
  let lf ← g.extract_last_frame merged "outputs/images/last_frame.png"
  return (merged, lf)

/-- The whole scene loop: thread the index and `last_frame`, collecting the
`video_paths` list in iteration order. -/
def pipelineLoop (g : Gen) (images_path : Option String) :
    List SceneSpec → Nat → Option String → Except PyErr (List String)
  | [], _, _ => .ok []
  | scene :: rest, i, last_frame => do
    let (clip, lf) ← sceneStep g images_path i scene last_frame
    let clips ← pipelineLoop g images_path rest (i + 1) (some lf)
    return clip :: clips

/-- What a successful `pipeline` call produces: the `video_paths` list it
passes to `concat_videos`, the concat `ffmpeg` command, and the Python return
value.  `pipeline` has no `return` statement, so `ret` is always `none`. -/
structure RunOutcome where
  clips : List String
  cmd : List String
  ret : Option String
deriving DecidableEq, Repr

/-- `pipeline` after the script has been parsed into `scenes`
(`src/pipeline.py`, lines 91-119): run the scene loop, concatenate into
`outputs/videos/final.mp4`, and fall off the end (returning Python `None`).
No music generation or background-audio mixing occurs anywhere in the
function. -/
def pipelineRun (g : Gen) (scenes : List SceneSpec)
    (images_path : Option String) : Except PyErr RunOutcome := do
  let clips ← pipelineLoop g images_path scenes 0 none
  let cmd ← concat_videos clips "outputs/videos/final.mp4"
  return ⟨clips, cmd, none⟩

/-! Reference functions used to state what the loop computes when every
generator call succeeds with a non-empty result list. -/

/-- Oracles that always succeed: each generator returns its result list
directly (success of every scene's generation steps). -/
structure TotalGen where
  gi : String → Option String → String → List String
  gt : String → List String
  gv : String → Option String → List String
  gm : String → String → String → String
  ge : String → String → String

/-- View a `TotalGen` as a `Gen` in which no call raises and
`generate_videos` never returns `None`. -/
def TotalGen.toGen (f : TotalGen) : Gen where
  generate_images := fun p ip o => .ok (f.gi p ip o)
  generate_tts := fun t => .ok (f.gt t)
  generate_videos := fun p seed => .ok (some (f.gv p seed))
  merge_audio_to_video := fun v a o => .ok (f.gm v a o)
  extract_last_frame := fun v o => .ok (f.ge v o)

/-- A `TotalGen` whose result lists are never empty (so every `[0]`
subscript in the loop succeeds). -/
def TotalGen.fruitful (f : TotalGen) : Prop :=
  (∀ p ip o, f.gi p ip o ≠ []) ∧ (∀ t, f.gt t ≠ []) ∧ (∀ p s, f.gv p s ≠ [])

/-- The image list generated for scene `i`. -/
def imagesOut (f : TotalGen) (ip : Option String) (s : SceneSpec) (i : Nat) :
    List String :=
  f.gi (s.prompt_image ++ ", Use image reference ") ip
    ("outputs/images/image_" ++ toString i ++ ".png")

/-- The image argument of scene `i`'s video-generation call: the freshly
generated image for scene 0, the incoming `last_frame` for every other
scene. -/
def videoSeed (f : TotalGen) (ip : Option String) (s : SceneSpec) (i : Nat)
    (lf : Option String) : Option String :=
  if i = 0 then some ((imagesOut f ip s i).headD "") else lf

/-- The muxed clip path scene `i` appends to `video_paths`. -/
def sceneClip (f : TotalGen) (ip : Option String) (i : Nat) (s : SceneSpec)
    (lf : Option String) : String :=
  pyReplace ((f.gv (s.prompt_video ++ ", Use image reference ")
    (videoSeed f ip s i lf)).headD "") ".mp4" "_audio.mp4"

/-- The last frame extracted at the end of scene `i`'s iteration. -/
def sceneLastFrame (f : TotalGen) (ip : Option String) (i : Nat)
    (s : SceneSpec) (lf : Option String) : String :=
  f.ge (sceneClip f ip i s lf) "outputs/images/last_frame.png"

/-- The `video_paths` list the loop accumulates, as a direct recursion. -/
def clipsRef (f : TotalGen) (ip : Option String) :
    List SceneSpec → Nat → Option String → List String
  | [], _, _ => []
  | s :: rest, i, lf =>
    sceneClip f ip i s lf ::
      clipsRef f ip rest (i + 1) (some (sceneLastFrame f ip i s lf))

/-- The `last_frame` value in force when the loop reaches `j` scenes past the
head of the given scene list. -/
def lfChain (f : TotalGen) (ip : Option String) :
    List SceneSpec → Nat → Option String → Nat → Option String
  | _, _, lf, 0 => lf
  | [], _, lf, _ + 1 => lf
  | s :: rest, i, lf, j + 1 =>
    lfChain f ip rest (i + 1) (some (sceneLastFrame f ip i s lf)) j

/-! ## `api.py`: the `POST /api/generate` handler -/

/-- The gateway's response: either the success JSON payload
`{ok: true, video_path, video_url}` or an `HTTPException` with its status and
detail. -/
inductive ApiResp where
  | payload (video_path video_url : String)
  | err (status : Nat) (detail : String)
deriving DecidableEq, Repr

/-- The image path handed to the pipeline: the staged upload path when an
image was uploaded and staging succeeded, otherwise Python `None`. -/
def stagedImagePath (upload : Option (Except String String)) : Option String :=
  match upload with
  | some (.ok p) => some p
  | _ => none

/-- `api.generate_video` (`src/api.py`, lines 255-296).  `upload` is `none`
when no image was sent, `some (.ok path)` when staging the upload succeeded at
`path`, and `some (.error e)` when staging raised.  `run_pipeline` is the
imported `pipeline.pipeline`, abstracted by its result; `path_exists` is
`os.path.exists`.  A staging failure raises HTTP 400; a pipeline exception,
or a returned path that is falsy or does not exist, raises HTTP 500; otherwise
the JSON payload carries the path and the path re-rooted under the `/static`
mount of the `outputs` directory. -/
def generate_video (upload : Option (Except String String))
    (run_pipeline : Option String → Except PyErr (Option String))
    (path_exists : String → Bool) : ApiResp :=
  match upload with
  | some (.error e) => .err 400 ("Lỗi lưu ảnh upload: " ++ e)
  | _ =>
    match run_pipeline (stagedImagePath upload) with
    | .error e => .err 500 ("Lỗi chạy pipeline: " ++ pyErrMsg e)
    | .ok none => .err 500 "Pipeline không trả về video hợp lệ."
    | .ok (some p) =>
      if p = "" ∨ path_exists p = false then
        .err 500 "Pipeline không trả về video hợp lệ."
      else
        .payload p ("/static/" ++ relpath p "outputs")

/-! ## Poll loops: `video_generator.generate_videos` and
`music_generator.generate_music` -/

/-- The tri-state a fetch of a poll-based remote job can report. -/
inductive PollStatus where
  | running
  | succeeded
  | failed
deriving DecidableEq, Repr

/-- How one `generate_music` call ends. -/
inductive MusicOutcome where
  | downloaded
  | genFailed
  | timedOut
deriving DecidableEq, Repr

/-- The poll loop of `music_generator.generate_music` (`src/music_generator.py`,
lines 122-146), observed for `fuel` iterations.  `status k` is the status the
`k`-th fetch reports (`succeeded` abstracts a success response carrying an
`audio_url`); each `time.sleep(poll_interval)` advances the clock by
`interval` seconds, so the `k`-th iteration's `time.time() - start_time` is
`k * interval`.  The timeout branch fires only when `timeout` is truthy
(non-zero) and the elapsed time strictly exceeds it.  `none` means the loop
was still polling after `fuel` iterations. -/
def musicPollFuel (status : Nat → PollStatus) (timeout interval : Nat) :
    Nat → Nat → Option MusicOutcome
  | _, 0 => none
  | k, fuel + 1 =>
    match status k with
    | .succeeded => some .downloaded
    | .failed => some .genFailed
    | .running =>
      if timeout ≠ 0 ∧ k * interval > timeout then some .timedOut
      else musicPollFuel status timeout interval (k + 1) fuel

/-- The poll loop of `video_generator.generate_videos`
(`src/video_generator.py`, lines 79-82): `while not operation.done:` sleep and
re-fetch.  `done k` is what the `k`-th fetch of `operation.done` reports.  The
loop has no timeout check of any kind, so its only exit is a `done`
observation; `none` means it was still polling after `fuel` iterations. -/
def veoPollFuel (done : Nat → Bool) : Nat → Nat → Option Nat
  | _, 0 => none
  | k, fuel + 1 => if done k then some k else veoPollFuel done (k + 1) fuel

/-- A fetch that never reports a terminal state. -/
def neverTerminal : Nat → PollStatus := fun _ => .running

/-- An operation that never becomes done. -/
def neverDone : Nat → Bool := fun _ => false

/-! ## Retry loops: `video_generator.generate_videos` and
`tts_generator.generate_tts` -/

/-- The retry loop of `generate_videos` (`src/video_generator.py`, lines
70-114): `attempt k` is what the `k`-th attempt's body produces (`1`-based).
On success the saved paths are returned; on an exception the next attempt
runs; after the last attempt the function falls through to `return None`. -/
def videosRetry (attempt : Nat → Except PyErr (List String)) :
    Nat → Nat → Option (List String)
  | _, 0 => none
  | k, fuel + 1 =>
    match attempt k with
    | .ok v => some v
    | .error _ => videosRetry attempt (k + 1) fuel

/-- `generate_videos`' result as a function of its attempts: the loop runs
`max_retries` attempts starting at attempt 1. -/
def generateVideosResult (attempt : Nat → Except PyErr (List String))
    (max_retries : Nat) : Option (List String) :=
  videosRetry attempt 1 max_retries

/-- The retry loop of `generate_tts` (`src/tts_generator.py`, lines 116-167):
with `fuel` retries left, an exception triggers another attempt; with no
retries left the exception is re-raised. -/
def ttsRetry (attempt : Nat → Except PyErr (List String)) :
    Nat → Nat → Except PyErr (List String)
  | k, 0 => attempt k
  | k, fuel + 1 =>
    match attempt k with
    | .ok v => .ok v
    | .error _ => ttsRetry attempt (k + 1) fuel

/-- `generate_tts`' retry structure: `max_attempts = 3`, attempts numbered
from 1, the third failure re-raised. -/
def generateTtsResult (attempt : Nat → Except PyErr (List String)) :
    Except PyErr (List String) :=
  ttsRetry attempt 1 2

/-! ## Concrete oracles for the closed evaluations -/

/-- A tracing generator set: the video oracle records its image seed inside
the produced file name, which makes the seed of each scene's video call
observable in the final clip list. -/
def demoGen : TotalGen where
  gi := fun _ _ o => [o]
  gt := fun _ => ["tts.wav"]
  gv := fun _ seed => ["vid_" ++ seed.getD "none" ++ ".mp4"]
  gm := fun _ _ o => o
  ge := fun _ o => o

/-- A fixed scene specification used by the closed evaluations. -/
def demoScene : SceneSpec := ⟨"xin chào", "a scene", "a motion", "a lesson"⟩

/-! ## Lemmas about the scene loop under always-successful oracles -/

theorem pyIndex_zero_of_ne_nil (xs : List String) (h : xs ≠ []) :
    pyIndex xs 0 = .ok (xs.headD "") := by
  cases xs with
  | nil => exact absurd rfl h
  | cons a as => simp [pyIndex]

theorem sceneStep_toGen (f : TotalGen) (hf : f.fruitful) (ip : Option String)
    (i : Nat) (s : SceneSpec) (lf : Option String) :
    sceneStep f.toGen ip i s lf =
      .ok (sceneClip f ip i s lf, sceneLastFrame f ip i s lf) := by
  obtain ⟨hgi, hgt, hgv⟩ := hf
  have himgs := hgi (s.prompt_image ++ ", Use image reference ") ip
    ("outputs/images/image_" ++ toString i ++ ".png")
  have haud := hgt s.script
  unfold sceneStep TotalGen.toGen
  by_cases hi : i = 0
  · subst hi
    cases hImgs : f.gi (s.prompt_image ++ ", Use image reference ") ip
        ("outputs/images/image_" ++ toString 0 ++ ".png") with
    | nil => exact absurd hImgs himgs
    | cons a as =>
      cases hAud : f.gt s.script with
      | nil => exact absurd hAud haud
      | cons b bs =>
        cases hVids : f.gv (s.prompt_video ++ ", Use image reference ") (some a) with
        | nil => exact absurd hVids (hgv _ _)
        | cons c cs =>
          simp [Bind.bind, Except.bind, Pure.pure, Except.pure, hImgs, hAud, pyIndex,
            pySub, hVids, sceneClip, sceneLastFrame, videoSeed, imagesOut]
  · cases hAud : f.gt s.script with
    | nil => exact absurd hAud haud
    | cons b bs =>
      cases hVids : f.gv (s.prompt_video ++ ", Use image reference ") lf with
      | nil => exact absurd hVids (hgv _ _)
      | cons c cs =>
        simp [Bind.bind, Except.bind, Pure.pure, Except.pure, hi, hAud, pyIndex,
          pySub, hVids, sceneClip, sceneLastFrame, videoSeed, imagesOut]

theorem pipelineLoop_toGen (f : TotalGen) (hf : f.fruitful) (ip : Option String)
    (scenes : List SceneSpec) (i : Nat) (lf : Option String) :
    pipelineLoop f.toGen ip scenes i lf = .ok (clipsRef f ip scenes i lf) := by
  induction scenes generalizing i lf with
  | nil => rfl
  | cons s rest ih =>
    unfold pipelineLoop clipsRef
    rw [sceneStep_toGen f hf]
    simp [Bind.bind, Except.bind, Pure.pure, Except.pure, ih]

theorem clipsRef_length (f : TotalGen) (ip : Option String)
    (scenes : List SceneSpec) (i : Nat) (lf : Option String) :
    (clipsRef f ip scenes i lf).length = scenes.length := by
  induction scenes generalizing i lf with
  | nil => rfl
  | cons s rest ih => simp [clipsRef, ih]

theorem clipsRef_get (f : TotalGen) (ip : Option String)
    (scenes : List SceneSpec) (i : Nat) (lf : Option String) (j : Nat)
    (hj : j < scenes.length) :
    (clipsRef f ip scenes i lf)[j]? =
      some (sceneClip f ip (i + j) (scenes.get ⟨j, hj⟩)
        (lfChain f ip scenes i lf j)) := by
  induction scenes generalizing i lf j with
  | nil => exact absurd hj (by simp)
  | cons s rest ih =>
    cases j with
    | zero => simp [clipsRef, lfChain]
    | succ j' =>
      have hj' : j' < rest.length := Nat.lt_of_succ_lt_succ hj
      simp only [clipsRef, lfChain, List.getElem?_cons_succ, List.get]
      rw [ih _ _ j' hj']
      congr 2
      omega

/-! ## Claim theorems -/

/-- C1: for every script with `N ≥ 1` scenes in which every scene's
generation steps succeed, the `video_paths` list the pipeline passes to
`concat_videos` has exactly `N` entries, and the entry at position `j` is the
muxed clip produced from scene `j`'s prompts and narration (the loop is
sequential, so completion order coincides with script order and the property
holds for the only possible completion order). -/
theorem pipeline_preserves_scene_order (f : TotalGen) (hf : f.fruitful)
    (ip : Option String) (scenes : List SceneSpec) (hN : scenes ≠ []) :
    pipelineRun f.toGen scenes ip =
      .ok ⟨clipsRef f ip scenes 0 none,
        concatCmd ((clipsRef f ip scenes 0 none).map pathNorm)
          "outputs/videos/final.mp4", none⟩ ∧
    (clipsRef f ip scenes 0 none).length = scenes.length ∧
    ∀ (j : Nat) (hj : j < scenes.length),
      (clipsRef f ip scenes 0 none)[j]? =
        some (sceneClip f ip j (scenes.get ⟨j, hj⟩)
          (lfChain f ip scenes 0 none j)) := by
  refine ⟨?_, clipsRef_length f ip scenes 0 none, ?_⟩
  · unfold pipelineRun
    rw [pipelineLoop_toGen f hf]
    have hne : (clipsRef f ip scenes 0 none).length ≠ 0 := by
      rw [clipsRef_length]
      simpa using fun h => hN (List.eq_nil_of_length_eq_zero h)
    simp [Bind.bind, Except.bind, Pure.pure, Except.pure, concat_videos, hne]
  · intro j hj
    simpa using clipsRef_get f ip scenes 0 none j hj

theorem pipeline_preserves_scene_order_witness :
    pipelineRun demoGen.toGen [demoScene, demoScene] (some "2.jpg") =
      .ok ⟨clipsRef demoGen (some "2.jpg") [demoScene, demoScene] 0 none,
        concatCmd ((clipsRef demoGen (some "2.jpg")
            [demoScene, demoScene] 0 none).map pathNorm)
          "outputs/videos/final.mp4", none⟩ ∧
    (clipsRef demoGen (some "2.jpg") [demoScene, demoScene] 0 none).length = 2 :=
  have h := pipeline_preserves_scene_order demoGen
    ⟨fun _ _ _ => by simp [demoGen], fun _ => by simp [demoGen],
      fun _ _ => by simp [demoGen]⟩
    (some "2.jpg") [demoScene, demoScene] (by simp)
  ⟨h.1, h.2.1⟩

/-- C7: `merge_audio_to_video` with default options builds exactly the
command that maps the video stream of the first input (`0:v:0`) and the audio
stream of the second input (`1:a:0`), stream-copies the video (`-c:v copy`),
and passes `-shortest`, so the output duration is the shorter input's. -/
theorem merge_default_cmd (v a o : String) :
    mergeAudioCmd v a o 0 none false =
      ["ffmpeg", "-y", "-i", v, "-i", a, "-map", "0:v:0", "-map", "1:a:0",
        "-c:v", "copy", "-c:a", "aac", "-b:a", "192k", "-shortest", o] ∧
    "-shortest" ∈ mergeAudioCmd v a o 0 none false := by
  constructor
  · rfl
  · simp [mergeAudioCmd]

/-- C5 counterexample: a single-clip list does not fail fast — the claim says
a one-element list must raise, but `concat_videos` happily builds an
`n=1` concat command for it. -/
theorem concat_single_clip_counterexample :
    concat_videos ["a.mp4"] "out.mp4" =
      .ok ["ffmpeg", "-y", "-i", "a.mp4", "-filter_complex",
        "[0:v][0:a]concat=n=1:v=1:a=1[vout][aout]", "-map", "[vout]", "-map",
        "[aout]", "-c:v", "libx264", "-preset", "veryfast", "-crf", "18",
        "-c:a", "aac", "-b:a", "192k", "out.mp4"] := by rfl

/-- C5 amended: `concat_videos` fails fast (with
`ValueError("Danh sách video rỗng")`, before building any command) exactly on
the zero-clip list; every non-empty list, the single-clip list included, is
accepted and turned into a re-encoding concat command. -/
theorem concat_empty_fails_amended (paths : List String) (output : String) :
    (paths = [] →
      concat_videos paths output = .error (.valueError "Danh sách video rỗng")) ∧
    (paths ≠ [] →
      concat_videos paths output = .ok (concatCmd (paths.map pathNorm) output)) := by
  constructor
  · intro h; subst h; rfl
  · intro h
    have hne : (paths.map pathNorm).length ≠ 0 := by
      simpa using fun hnil => h (List.eq_nil_of_length_eq_zero hnil)
    simp [concat_videos, hne, h]

theorem concat_empty_fails_amended_witness :
    concat_videos [] "outputs/videos/final.mp4" =
      .error (.valueError "Danh sách video rỗng") ∧
    concat_videos ["a.mp4", "b.mp4"] "o.mp4" =
      .ok (concatCmd (["a.mp4", "b.mp4"].map pathNorm) "o.mp4") :=
  ⟨(concat_empty_fails_amended [] "outputs/videos/final.mp4").1 rfl,
    (concat_empty_fails_amended ["a.mp4", "b.mp4"] "o.mp4").2 (by simp)⟩

/-- C8 counterexample: with oracles that record each video call's image seed
inside the produced clip name, a two-scene run shows scene 1's clip was
seeded with `outputs/images/last_frame.png` (the frame extracted from scene
0's muxed clip) and not with scene 1's freshly generated image
`outputs/images/image_1.png` — the claim fails for every scene index other
than 0. -/
theorem video_seed_counterexample :
    (pipelineRun demoGen.toGen [demoScene, demoScene] (some "2.jpg")).map
        RunOutcome.clips =
      .ok ["vid_outputs/images/image_0.png_audio.mp4",
        "vid_outputs/images/last_frame.png_audio.mp4"] ∧
    ("vid_outputs/images/last_frame.png_audio.mp4" : String) ≠
      "vid_outputs/images/image_1.png_audio.mp4" := by
  constructor
  · rfl
  · decide

/-- C8 amended: scene 0's video-generation call is seeded with the image
freshly generated from scene 0's `prompt_image`; every later scene's call is
seeded with the `last_frame` extracted from the previous scene's muxed clip,
even though a fresh image is still generated (and left unused) for that
scene. -/
theorem video_seed_amended (f : TotalGen) (hf : f.fruitful)
    (ip : Option String) (i : Nat) (s : SceneSpec) (lf : Option String) :
    (i = 0 → videoSeed f ip s i lf = some ((imagesOut f ip s i).headD "")) ∧
    (i ≠ 0 → videoSeed f ip s i lf = lf) ∧
    sceneStep f.toGen ip i s lf =
      .ok (pyReplace ((f.gv (s.prompt_video ++ ", Use image reference ")
          (videoSeed f ip s i lf)).headD "") ".mp4" "_audio.mp4",
        sceneLastFrame f ip i s lf) := by
  refine ⟨fun hi => by simp [videoSeed, hi], fun hi => by simp [videoSeed, hi], ?_⟩
  rw [sceneStep_toGen f hf]
  rfl

theorem video_seed_amended_witness :
    videoSeed demoGen (some "2.jpg") demoScene 1 (some "outputs/images/last_frame.png") =
      some "outputs/images/last_frame.png" ∧
    sceneStep demoGen.toGen (some "2.jpg") 1 demoScene
        (some "outputs/images/last_frame.png") =
      .ok (pyReplace ((demoGen.gv (demoScene.prompt_video ++ ", Use image reference ")
          (videoSeed demoGen (some "2.jpg") demoScene 1
            (some "outputs/images/last_frame.png"))).headD "") ".mp4" "_audio.mp4",
        sceneLastFrame demoGen (some "2.jpg") 1 demoScene
          (some "outputs/images/last_frame.png")) :=
  have h := video_seed_amended demoGen
    ⟨fun _ _ _ => by simp [demoGen], fun _ => by simp [demoGen],
      fun _ _ => by simp [demoGen]⟩
    (some "2.jpg") 1 demoScene (some "outputs/images/last_frame.png")
  ⟨h.2.1 (by decide), h.2.2⟩

/-- C2 counterexample: a run in which every step succeeds ends with the
pipeline returning Python `None` — no music is requested, nothing is mixed,
and no final-artifact path is returned. -/
theorem pipeline_returns_none_counterexample :
    (pipelineRun demoGen.toGen [demoScene] (some "2.jpg")).map RunOutcome.ret =
      .ok none := by rfl

/-- C2 amended: whenever `pipeline` completes without an exception it has
concatenated the scene clips into `outputs/videos/final.mp4` and then simply
falls off the end: its return value is `None` and the only `ffmpeg` command
issued after the scene loop is the concat command — no music generation and
no background-audio mixing exist in the function. -/
theorem pipeline_no_music_amended (g : Gen) (scenes : List SceneSpec)
    (ip : Option String) (out : RunOutcome)
    (h : pipelineRun g scenes ip = .ok out) :
    out.ret = none ∧
    out.cmd = concatCmd (out.clips.map pathNorm) "outputs/videos/final.mp4" := by
  unfold pipelineRun at h
  cases hl : pipelineLoop g ip scenes 0 none with
  | error e => rw [hl] at h; simp [Bind.bind, Except.bind] at h
  | ok clips =>
    rw [hl] at h
    by_cases hc : (clips.map pathNorm).length = 0
    · simp [Bind.bind, Except.bind, concat_videos, hc] at h
    · have hcl : clips ≠ [] := fun hnil => hc (by simp [hnil])
      simp [Bind.bind, Except.bind, Pure.pure, Except.pure, concat_videos,
        hc, hcl] at h
      rw [← h]
      exact ⟨rfl, rfl⟩

theorem pipeline_no_music_amended_witness :
    (⟨["vid_outputs/images/image_0.png_audio.mp4"],
        concatCmd ["vid_outputs/images/image_0.png_audio.mp4"]
          "outputs/videos/final.mp4", none⟩ : RunOutcome).ret = none ∧
    (⟨["vid_outputs/images/image_0.png_audio.mp4"],
        concatCmd ["vid_outputs/images/image_0.png_audio.mp4"]
          "outputs/videos/final.mp4", none⟩ : RunOutcome).cmd =
      concatCmd (["vid_outputs/images/image_0.png_audio.mp4"].map pathNorm)
        "outputs/videos/final.mp4" :=
  pipeline_no_music_amended demoGen.toGen [demoScene] (some "2.jpg") _ (by rfl)

/-- Oracles identical to `demoGen`'s except that every narration (TTS) call
raises. -/
def ttsFailGen : Gen :=
  { demoGen.toGen with generate_tts := fun _ => .error (.raised "Tạo TTS thất bại") }

/-- C4 counterexample: with a TTS step that raises, the whole two-scene
pipeline call itself fails with that exception — the per-scene failure is not
captured into any per-scene result and does escape the scene's boundary,
aborting the run before the second scene is processed. -/
theorem scene_failure_escapes_counterexample :
    pipelineRun ttsFailGen [demoScene, demoScene] (some "2.jpg") =
      .error (.raised "Tạo TTS thất bại") := by rfl

/-- C4 amended: the scene loop has no per-scene `try`/`except`: the first
scene whose step raises makes the entire pipeline call fail with that very
exception, regardless of how many scenes follow (so no later scene is
processed); and `generate_tts` itself re-raises the last error once its three
attempts are exhausted. -/
theorem scene_failure_aborts_run_amended (g : Gen) (ip : Option String)
    (s : SceneSpec) (e : PyErr) (rest : List SceneSpec)
    (h : sceneStep g ip 0 s none = .error e)
    (attempt : Nat → Except PyErr (List String)) (e1 e2 e3 : PyErr)
    (h1 : attempt 1 = .error e1) (h2 : attempt 2 = .error e2)
    (h3 : attempt 3 = .error e3) :
    pipelineRun g (s :: rest) ip = .error e ∧
    generateTtsResult attempt = .error e3 := by
  constructor
  · unfold pipelineRun pipelineLoop
    rw [h]
    rfl
  · unfold generateTtsResult ttsRetry
    rw [h1]
    unfold ttsRetry
    rw [h2]
    unfold ttsRetry
    exact h3

theorem scene_failure_aborts_run_amended_witness :
    pipelineRun ttsFailGen [demoScene] (some "2.jpg") =
      .error (.raised "Tạo TTS thất bại") ∧
    generateTtsResult (fun _ => .error (.raised "Tạo TTS thất bại")) =
      .error (.raised "Tạo TTS thất bại") :=
  scene_failure_aborts_run_amended ttsFailGen (some "2.jpg") demoScene
    (.raised "Tạo TTS thất bại") [] (by rfl)
    (fun _ => .error (.raised "Tạo TTS thất bại"))
    (.raised "Tạo TTS thất bại") (.raised "Tạo TTS thất bại")
    (.raised "Tạo TTS thất bại") rfl rfl rfl

/-- C3: the gateway's `POST /api/generate` handler returns the success
payload `{ok: true, video_path, video_url}` — with `video_url` the pipeline's
returned path re-rooted under the `/static` mount of `outputs` — exactly when
the upload staging did not raise and the invoked pipeline function returned a
non-`None`, non-empty path to an existing file; a failed upload yields HTTP
400, and a pipeline exception or an invalid returned path yields HTTP 500. -/
theorem api_generate_contract (upload : Option (Except String String))
    (run_pipeline : Option String → Except PyErr (Option String))
    (path_exists : String → Bool) :
    (∀ p, (¬ ∃ e, upload = some (.error e)) →
      run_pipeline (stagedImagePath upload) = .ok (some p) → p ≠ "" →
      path_exists p = true →
      generate_video upload run_pipeline path_exists =
        .payload p ("/static/" ++ relpath p "outputs")) ∧
    (∀ e, upload = some (.error e) →
      generate_video upload run_pipeline path_exists =
        .err 400 ("Lỗi lưu ảnh upload: " ++ e)) ∧
    (∀ e, (¬ ∃ e', upload = some (.error e')) →
      run_pipeline (stagedImagePath upload) = .error e →
      generate_video upload run_pipeline path_exists =
        .err 500 ("Lỗi chạy pipeline: " ++ pyErrMsg e)) ∧
    ((¬ ∃ e', upload = some (.error e')) →
      run_pipeline (stagedImagePath upload) = .ok none →
      generate_video upload run_pipeline path_exists =
        .err 500 "Pipeline không trả về video hợp lệ.") := by
  have hok : (¬ ∃ e, upload = some (.error e)) →
      generate_video upload run_pipeline path_exists =
        (match run_pipeline (stagedImagePath upload) with
          | .error e => .err 500 ("Lỗi chạy pipeline: " ++ pyErrMsg e)
          | .ok none => .err 500 "Pipeline không trả về video hợp lệ."
          | .ok (some p) =>
            if p = "" ∨ path_exists p = false then
              .err 500 "Pipeline không trả về video hợp lệ."
            else .payload p ("/static/" ++ relpath p "outputs")) := by
    intro hne
    unfold generate_video
    rcases upload with _ | u
    · rfl
    · rcases u with e | q
      · exact absurd ⟨e, rfl⟩ hne
      · rfl
  refine ⟨?_, ?_, ?_, ?_⟩
  · intro p hne hrun hp hex
    rw [hok hne, hrun]
    simp [hp, hex]
  · intro e he
    subst he
    rfl
  · intro e hne hrun
    rw [hok hne, hrun]
  · intro hne hrun
    rw [hok hne, hrun]

theorem api_generate_contract_witness :
    generate_video none (fun _ => .ok (some "outputs/videos/final.mp4"))
        (fun _ => true) =
      .payload "outputs/videos/final.mp4" "/static/videos/final.mp4" :=
  have h := (api_generate_contract none
    (fun _ => .ok (some "outputs/videos/final.mp4")) (fun _ => true)).1
    "outputs/videos/final.mp4"
    (by rintro ⟨e, he⟩; cases he) rfl (by decide) rfl
  by simpa using h

theorem musicPoll_timeout_aux (status : Nat → PollStatus)
    (hs : ∀ k, status k = .running) (timeout interval : Nat)
    (ht : 0 < timeout) (hi : 0 < interval) :
    ∀ fuel k, k ≤ timeout / interval + 1 →
      timeout / interval + 2 - k ≤ fuel →
      musicPollFuel status timeout interval k fuel = some .timedOut := by
  intro fuel
  induction fuel with
  | zero => intro k hk hf; omega
  | succ fuel ih =>
    intro k hk hf
    unfold musicPollFuel
    rw [hs k]
    by_cases hko : k * interval > timeout
    · simp [Nat.pos_iff_ne_zero.mp ht, hko]
    · have hk2 : k * interval ≤ timeout := Nat.le_of_not_lt hko
      have hkd : k ≤ timeout / interval := (Nat.le_div_iff_mul_le hi).mpr hk2
      simp only [Nat.pos_iff_ne_zero.mp ht, hko, ne_eq, not_false_iff,
        true_and, and_false, if_false, if_neg]
      exact ih (k + 1) (by omega) (by omega)

set_option maxRecDepth 8000 in
/-- C6 counterexample: the video generator's poll loop
(`while not operation.done:` in `generate_videos`) has no timeout at all —
against an operation that never becomes done it is still polling after 200
poll ticks (2000 modeled seconds at its 10-second default interval, far past
every timeout configured anywhere in this codebase), and no timeout-kind
failure value even exists among its exits. -/
theorem veo_poll_no_timeout_counterexample :
    veoPollFuel neverDone 0 200 = none := by rfl

/-- C6 amended: the music generator's poll loop does raise `TimeoutError`
once its wall-clock budget is exceeded (whenever `timeout` is non-zero and
the fetch never reports a terminal state, within `timeout / interval + 2`
iterations); the video generator's poll loop, by contrast, has no timeout
check and is still polling after arbitrarily many ticks when the operation
never completes. -/
theorem poll_timeout_amended (status : Nat → PollStatus)
    (hs : ∀ k, status k = .running) (timeout interval : Nat)
    (ht : 0 < timeout) (hi : 0 < interval)
    (done : Nat → Bool) (hd : ∀ j, done j = false) (k fuel : Nat) :
    musicPollFuel status timeout interval 0 (timeout / interval + 2) =
      some .timedOut ∧
    veoPollFuel done k fuel = none := by
  constructor
  · exact musicPoll_timeout_aux status hs timeout interval ht hi
      (timeout / interval + 2) 0 (Nat.zero_le _) (by simp)
  · induction fuel generalizing k with
    | zero => rfl
    | succ fuel ih =>
      unfold veoPollFuel
      rw [hd k]
      simpa using ih (k + 1)

theorem poll_timeout_amended_witness :
    musicPollFuel neverTerminal 600 5 0 122 = some .timedOut ∧
    veoPollFuel neverDone 0 500 = none :=
  poll_timeout_amended neverTerminal (fun _ => rfl) 600 5 (by decide)
    (by decide) neverDone (fun _ => rfl) 0 500

/-- C10: when every one of its `max_retries` attempts raises,
`generate_videos` returns Python `None` (neither the last exception nor an
empty list), and a caller that subscripts that result — as the pipeline's
scene step does with `video_path[0]` — fails with a `TypeError` rather than
any typed generation failure. -/
theorem generate_videos_none_after_retries
    (attempt : Nat → Except PyErr (List String)) (max_retries : Nat)
    (hfail : ∀ k, isErr (attempt k) = true)
    (g : Gen) (ip : Option String) (s : SceneSpec) (lf : Option String)
    (imgs auds : List String)
    (hgi : g.generate_images (s.prompt_image ++ ", Use image reference ") ip
      ("outputs/images/image_" ++ toString 0 ++ ".png") = .ok imgs)
    (himgs : imgs ≠ [])
    (hgt : g.generate_tts s.script = .ok auds)
    (hgv : g.generate_videos (s.prompt_video ++ ", Use image reference ")
      (some (imgs.headD "")) = .ok none) :
    generateVideosResult attempt max_retries = none ∧
    (∀ j, pySub none j = .error .typeError) ∧
    sceneStep g ip 0 s lf = .error .typeError := by
  refine ⟨?_, fun j => rfl, ?_⟩
  · unfold generateVideosResult
    generalize 1 = k
    induction max_retries generalizing k with
    | zero => rfl
    | succ m ih =>
      unfold videosRetry
      cases ha : attempt k with
      | ok v => have := hfail k; rw [ha] at this; simp [isErr] at this
      | error e => exact ih (k + 1)
  · unfold sceneStep
    rw [hgi, hgt]
    cases imgs with
    | nil => exact absurd rfl himgs
    | cons a as =>
      simp only [List.headD_cons] at hgv
      simp [Bind.bind, Except.bind, pyIndex, pySub, hgv]

theorem generate_videos_none_after_retries_witness :
    generateVideosResult (fun _ => .error (.raised "quota")) 3 = none ∧
    pySub none 0 = .error .typeError ∧
    sceneStep { demoGen.toGen with
        generate_videos := fun _ _ => .ok none }
      (some "2.jpg") 0 demoScene none = .error .typeError :=
  have h := generate_videos_none_after_retries
    (fun _ => .error (.raised "quota")) 3 (fun _ => rfl)
    { demoGen.toGen with generate_videos := fun _ _ => .ok none }
    (some "2.jpg") demoScene none ["outputs/images/image_0.png"] ["tts.wav"]
    rfl (by decide) rfl rfl
  ⟨h.1, h.2.1 0, h.2.2⟩

theorem u16le?_eq_some {n : Int} {b : List Nat} (h : u16le? n = some b) :
    0 ≤ n ∧ n ≤ 65535 ∧ b = [n.toNat % 256, n.toNat / 256] := by
  unfold u16le? at h
  split at h
  · rename_i hc
    cases h
    exact ⟨hc.1, hc.2, rfl⟩
  · exact absurd h (by simp)

theorem u32le?_eq_some {n : Int} {b : List Nat} (h : u32le? n = some b) :
    0 ≤ n ∧ n ≤ 4294967295 ∧
      b = [n.toNat % 256, n.toNat / 256 % 256, n.toNat / 65536 % 256,
        n.toNat / 16777216] := by
  unfold u32le? at h
  split at h
  · rename_i hc
    cases h
    exact ⟨hc.1, hc.2, rfl⟩
  · exact absurd h (by simp)

/-- A mime type carrying neither a `rate=` parameter nor an `audio/L<bits>`
parameter (after the per-part stripping and lowering the parser performs). -/
def noMimeParams (mime : String) : Prop :=
  ∀ part ∈ pySplit mime ';',
    pyStartsWith (pyLower (pyStrip part)) "rate=" = false ∧
    pyStartsWith (pyStrip part) "audio/L" = false

instance (mime : String) : Decidable (noMimeParams mime) := by
  unfold noMimeParams
  infer_instance

theorem foldl_mimeStep_id (l : List String) (acc : AudioParams)
    (h : ∀ p ∈ l, pyStartsWith (pyLower (pyStrip p)) "rate=" = false ∧
      pyStartsWith (pyStrip p) "audio/L" = false) :
    l.foldl mimeStep acc = acc := by
  induction l generalizing acc with
  | nil => rfl
  | cons p rest ih =>
    have hp := h p (by simp)
    have hstep : mimeStep acc p = acc := by
      unfold mimeStep
      simp [hp.1, hp.2]
    rw [List.foldl_cons, hstep]
    exact ih acc (fun q hq => h q (by simp [hq]))

theorem parse_no_params (mime : String) (h : noMimeParams mime) :
    parse_audio_mime_type mime = ⟨16, 24000⟩ :=
  foldl_mimeStep_id (pySplit mime ';') ⟨16, 24000⟩ h

/-- C9 counterexample: `convert_to_wav` does not return a header-plus-payload
byte string for every `mime_type` — with `mime_type = "rate=-1"` the parsed
rate is `-1`, the computed byte-rate is `-2`, and `struct.pack`'s range check
on the unsigned fields raises `struct.error` instead of returning any bytes. -/
theorem convert_to_wav_range_counterexample :
    convert_to_wav [] "rate=-1" =
      .error (.raised "struct.error: argument out of range") := by rfl

set_option maxHeartbeats 2000000 in
/-- C9 amended: whenever the packed header exists — i.e. the parsed
parameters and sizes fit their unsigned `struct.pack` fields, which in
particular requires `36 + len(audio_data) ≤ 2^32 - 1` and holds for every
parameter-free mime type with reasonably sized data — `convert_to_wav`
returns exactly `44 + len(audio_data)` bytes: a 44-byte header starting with
`"RIFF"`, whose chunk-size field is the little-endian encoding of
`36 + len(audio_data)` and whose data-size field encodes `len(audio_data)`,
followed by `audio_data` unchanged; and when the mime type carries no
`rate=` or `audio/L` parameter the header encodes 1 channel, 24000 Hz and 16
bits per sample.  Outside those ranges `struct.pack` raises (see the
counterexample). -/
theorem convert_to_wav_amended (data : List Nat) (mime : String)
    (hdr : List Nat)
    (hh : wavHeader? (parse_audio_mime_type mime) data.length = some hdr) :
    convert_to_wav data mime = .ok (hdr ++ data) ∧
    hdr.length = 44 ∧
    (hdr ++ data).length = 44 + data.length ∧
    hdr.take 4 = [82, 73, 70, 70] ∧
    u32le? ((36 : Int) + data.length) = some ((hdr.drop 4).take 4) ∧
    u32le? ((data.length : Int)) = some ((hdr.drop 40).take 4) ∧
    (hdr ++ data).drop 44 = data ∧
    (noMimeParams mime →
      (hdr.drop 22).take 2 = [1, 0] ∧
      (hdr.drop 24).take 4 = [192, 93, 0, 0] ∧
      (hdr.drop 34).take 2 = [16, 0]) := by
  have hconv : convert_to_wav data mime = .ok (hdr ++ data) := by
    unfold convert_to_wav
    rw [hh]
  unfold wavHeader? at hh
  simp only [Bind.bind, Option.bind_eq_some, Pure.pure, Option.some.injEq] at hh
  obtain ⟨b1, hb1, b2, hb2, b3, hb3, b4, hb4, b5, hb5, b6, hb6, b7, hb7,
    b8, hb8, b9, hb9, hhdr⟩ := hh
  obtain ⟨-, -, hb1v⟩ := u32le?_eq_some hb1
  obtain ⟨-, -, hb2v⟩ := u32le?_eq_some hb2
  obtain ⟨-, -, hb3v⟩ := u16le?_eq_some hb3
  obtain ⟨-, -, hb4v⟩ := u16le?_eq_some hb4
  obtain ⟨-, -, hb5v⟩ := u32le?_eq_some hb5
  obtain ⟨-, -, hb6v⟩ := u32le?_eq_some hb6
  obtain ⟨-, -, hb7v⟩ := u16le?_eq_some hb7
  obtain ⟨-, -, hb8v⟩ := u16le?_eq_some hb8
  obtain ⟨-, -, hb9v⟩ := u32le?_eq_some hb9
  subst hb1v hb2v hb3v hb4v hb5v hb6v hb7v hb8v hb9v
  subst hhdr
  refine ⟨hconv, by rfl, by simp; omega, by rfl, by exact hb1, by exact hb9,
    by rfl, ?_⟩
  · intro hnp
    have hp := parse_no_params mime hnp
    refine ⟨by rfl, ?_, ?_⟩
    · rw [hp]
      rfl
    · rw [hp]
      rfl

theorem convert_to_wav_amended_witness :
    convert_to_wav [7, 8] "audio/pcm" =
      .ok ([82, 73, 70, 70, 38, 0, 0, 0, 87, 65, 86, 69, 102, 109, 116, 32,
        16, 0, 0, 0, 1, 0, 1, 0, 192, 93, 0, 0, 128, 187, 0, 0, 2, 0, 16, 0,
        100, 97, 116, 97, 2, 0, 0, 0] ++ [7, 8]) :=
  (convert_to_wav_amended [7, 8] "audio/pcm"
    [82, 73, 70, 70, 38, 0, 0, 0, 87, 65, 86, 69, 102, 109, 116, 32,
      16, 0, 0, 0, 1, 0, 1, 0, 192, 93, 0, 0, 128, 187, 0, 0, 2, 0, 16, 0,
      100, 97, 116, 97, 2, 0, 0, 0] (by rfl)).1
